import Mathlib

/-!
Shallow embedding of the bulk-discount job pipeline of
`src/app/routes/app.bulk-discount.jsx`, together with proofs of the
spec-level properties of its three server actions
(`create_discounts`, `process_pending`, `retry_failed`).

The database is modelled as a list of rows; the external Shopify
GraphQL gateway is modelled as explicit function parameters returning
the response shapes the handler inspects.  Numeric GraphQL fields that
the handler only copies or tests for truthiness (percentage, usage
limit) are modelled as `Nat`.
-/

namespace FlowerStation

/-- Job item status: the `DiscountStatus` enum of the Prisma schema. -/
inductive DiscountStatus where
  | PENDING
  | CREATED
  | FAILED
deriving DecidableEq, Repr

/-- One `Discount` row (job item) of the Prisma schema. -/
structure Discount where
  id : String
  shop : String
  shopifyId : Option String
  code : String
  masterDiscountId : String
  discountSetId : Option String
  status : DiscountStatus
  errorMessage : Option String
deriving DecidableEq, Repr

/-- One `DiscountSet` row (job group) of the Prisma schema. -/
structure DiscountSet where
  id : String
  name : String
  shop : String
  masterDiscountId : String
deriving DecidableEq, Repr

/-- The `minimumRequirement` field of the master discount; the handler
copies it verbatim into every creation request. -/
inductive MinimumRequirement where
  | subtotal (amount : String) (currencyCode : String)
  | quantity (q : String)
deriving DecidableEq, Repr

/-- The `customerGets.value` field of the fetched master discount: the
GraphQL response exposes `percentage` when the value is a
DiscountPercentage and `amount` (an amount and a currency code) when it
is a DiscountAmount. -/
structure TemplateValue where
  percentage : Option Nat
  amount : Option (String × String)
deriving DecidableEq, Repr

/-- The `customerGets.items` field of the fetched master discount:
exactly the optional fields the inline fragments of the query expose.
Product and collection connections are flattened to their id lists. -/
structure TemplateItems where
  allItems : Option Bool
  products : Option (List String)
  collections : Option (List String)
deriving DecidableEq, Repr

/-- The `context` field of the fetched master discount. -/
structure TemplateContext where
  all : Option Bool
  customers : Option (List String)
deriving DecidableEq, Repr

/-- The master discount as the `process_pending` handler reads it from
the GraphQL response (`customerGets` flattened into `value`/`items`). -/
structure MasterDiscount where
  title : String
  minimumRequirement : Option MinimumRequirement
  value : TemplateValue
  items : TemplateItems
  context : TemplateContext
  usageLimit : Option Nat
  appliesOncePerCustomer : Bool
  startsAt : String
  endsAt : Option String
deriving DecidableEq, Repr

/-- JS truthiness of an optional boolean field: undefined and false are
falsy. -/
def jsTruthyBool : Option Bool → Bool
  | some b => b
  | none => false

/-- JS truthiness of an optional numeric field: undefined and 0 are
falsy. -/
def jsTruthyNum : Option Nat → Bool
  | some n => decide (n ≠ 0)
  | none => false

/-- Result of `buildItemSelection`: `all` stands for the object with
field all set to the literal string ALL. -/
inductive ItemSelection where
  | all
  | products (ids : List String)
  | collections (ids : List String)
deriving DecidableEq, Repr

/-- `buildItemSelection` of `process_pending`: an if-chain over the
optional item-scope fields, defaulting to the all-items selection. -/
def buildItemSelection (m : MasterDiscount) : ItemSelection :=
  if jsTruthyBool m.items.allItems then .all
  else
    match m.items.products with
    | some ids => .products ids
    | none =>
      match m.items.collections with
      | some ids => .collections ids
      | none => .all

/-- Result of `buildCustomerContext`. -/
inductive CustomerContext where
  | all
  | customers (ids : List String)
deriving DecidableEq, Repr

/-- `buildCustomerContext` of `process_pending`. -/
def buildCustomerContext (m : MasterDiscount) : CustomerContext :=
  if jsTruthyBool m.context.all then .all
  else
    match m.context.customers with
    | some ids => .customers ids
    | none => .all

/-- The `customerGets.value` of a creation request. -/
inductive InputValue where
  | percentage (p : Nat)
  | discountAmount (amount : String) (appliesOnEachItem : Bool)
deriving DecidableEq, Repr

/-- The creation request (`discountInput`) sent to
discountCodeBasicCreate for one item. -/
structure DiscountInput where
  code : String
  title : String
  startsAt : String
  endsAt : Option String
  context : CustomerContext
  value : InputValue
  items : ItemSelection
  minimumRequirement : Option MinimumRequirement
  usageLimit : Option Nat
  appliesOncePerCustomer : Bool
deriving DecidableEq, Repr

/-- The value branch of the request: the ternary on
value.percentage.  When the percentage is falsy and the template
exposes no amount either, the JS dereference value.amount.amount
throws; that case is `none`. -/
def buildInputValue (v : TemplateValue) : Option InputValue :=
  if jsTruthyNum v.percentage then some (.percentage (v.percentage.getD 0))
  else
    match v.amount with
    | some a => some (.discountAmount a.1 false)
    | none => none

/-- The `discountInput` object built inside the item loop of
`process_pending`, from the master discount, the precomputed selection
and context, and the item code. -/
def discountInput (m : MasterDiscount) (sel : ItemSelection) (ctx : CustomerContext)
    (code : String) : Option DiscountInput :=
  (buildInputValue m.value).map fun v =>
    { code := code
      title := m.title
      startsAt := m.startsAt
      endsAt := m.endsAt
      context := ctx
      value := v
      items := sel
      minimumRequirement := m.minimumRequirement
      usageLimit := m.usageLimit
      appliesOncePerCustomer := m.appliesOncePerCustomer }

/-- One entry of the userErrors array of a create response. -/
structure UserError where
  field : String
  message : String
deriving DecidableEq, Repr

/-- Body of a discountCodeBasicCreate response as the handler reads it:
optional userErrors array and optional created node id. -/
structure CreateData where
  userErrors : Option (List UserError)
  codeDiscountNode : Option String
deriving DecidableEq, Repr

/-- Outcome of one createCode call: a parsed response body, or a thrown
transport error whose JS message may be undefined. -/
inductive CreateReply where
  | response (d : CreateData)
  | thrown (msg : Option String)

/-- Outcome of the master-discount fetch inside `process_pending`:
a response whose discount may be missing, or a thrown error. -/
inductive FetchReply where
  | response (m : Option MasterDiscount)
  | thrown (msg : Option String)

/-- The Prisma update marking an item CREATED: sets status and
shopifyId, leaves every other column untouched. -/
def markCreated (remoteId : String) (d : Discount) : Discount :=
  { d with status := .CREATED, shopifyId := some remoteId }

/-- The Prisma update marking an item FAILED: sets status and
errorMessage, leaves every other column untouched. -/
def markFailed (msg : String) (d : Discount) : Discount :=
  { d with status := .FAILED, errorMessage := some msg }

/-- The joined field-error string built from userErrors. -/
def joinUserErrors (es : List UserError) : String :=
  String.intercalate ", " (es.map fun e => e.field ++ ": " ++ e.message)

/-- How the response of one createCode call is turned into a row
update: non-empty userErrors mark FAILED with the joined field errors;
otherwise a present node id marks CREATED; otherwise FAILED with the
unexpected-response message; a thrown error marks FAILED with its
message, defaulted when undefined. -/
def applyReply (reply : CreateReply) (d : Discount) : Discount :=
  match reply with
  | .thrown msg => markFailed (msg.getD "Unknown error") d
  | .response r =>
    if 0 < (r.userErrors.getD []).length then
      markFailed (joinUserErrors (r.userErrors.getD [])) d
    else
      match r.codeDiscountNode with
      | some rid => markCreated rid d
      | none => markFailed "Unexpected API response" d

/-- One iteration of the item loop: build the request from the claimed
record's code and apply the gateway reply to the row.  When the request
cannot be built the thrown TypeError is caught by the same per-item
handler and the row is marked FAILED with the error's message. -/
def processItem (m : MasterDiscount) (sel : ItemSelection) (ctx : CustomerContext)
    (createCode : DiscountInput → CreateReply) (code : String) (d : Discount) : Discount :=
  match discountInput m sel ctx code with
  | none => markFailed "Cannot read properties of undefined" d
  | some input => applyReply (createCode input) d

/-- A Prisma update by primary key, applied to the row list. -/
def updateById (db : List Discount) (i : String) (f : Discount → Discount) : List Discount :=
  db.map fun d => if d.id = i then f d else d

/-- The fixed batch bound of `process_pending`. -/
def BATCH_SIZE : Nat := 5

/-- The claim step: the PENDING rows of the set in row order, at most
BATCH_SIZE of them. -/
def claimPending (db : List Discount) (setId : String) : List Discount :=
  (db.filter fun d => decide (d.discountSetId = some setId ∧ d.status = .PENDING)).take BATCH_SIZE

/-- Number of PENDING rows of the set. -/
def countPending (db : List Discount) (setId : String) : Nat :=
  (db.filter fun d => decide (d.discountSetId = some setId ∧ d.status = .PENDING)).length

/-- Number of rows of the set with the given status. -/
def countStatus (db : List Discount) (setId : String) (s : DiscountStatus) : Nat :=
  (db.filter fun d => decide (d.discountSetId = some setId ∧ d.status = s)).length

/-- The per-batch loop of `process_pending`: for each claimed record in
order, update its row by id and increment processedCount. -/
def runBatch (m : MasterDiscount) (sel : ItemSelection) (ctx : CustomerContext)
    (createCode : DiscountInput → CreateReply)
    (db : List Discount) (claimed : List Discount) : List Discount × Nat :=
  claimed.foldl
    (fun acc item =>
      (updateById acc.1 item.id (processItem m sel ctx createCode item.code), acc.2 + 1))
    (db, 0)

/-- The success payload of one `process_pending` call. -/
structure ProcessResult where
  success : Bool
  complete : Bool
  processed : Nat
  remaining : Nat
  message : String
deriving DecidableEq, Repr

/-- A handler outcome: a success payload or a returned error message. -/
inductive ActionResult (α : Type) where
  | ok (r : α)
  | error (msg : String)
deriving DecidableEq, Repr

/-- The `process_pending` action: load the set, claim up to BATCH_SIZE
PENDING rows, report completion when none are left, fetch the master
discount once, process the claimed rows sequentially, and report the
processed count and the recomputed remaining PENDING count. -/
def process_pending (sets : List DiscountSet) (db : List Discount) (setId : String)
    (fetchMaster : String → FetchReply)
    (createCode : DiscountInput → CreateReply) :
    ActionResult ProcessResult × List Discount :=
  match sets.find? (fun s => decide (s.id = setId)) with
  | none => (.error "Discount set not found", db)
  | some dset =>
    let pendingDiscounts := claimPending db setId
    if pendingDiscounts.isEmpty then
      (.ok { success := true, complete := true
             message := "Processing complete. Created: "
               ++ toString (countStatus db setId .CREATED)
               ++ ", Failed: " ++ toString (countStatus db setId .FAILED)
             processed := 0, remaining := 0 }, db)
    else
      match fetchMaster dset.masterDiscountId with
      | .thrown msg => (.error (msg.getD "An error occurred"), db)
      | .response none => (.error "Master discount no longer exists", db)
      | .response (some m) =>
        let sel := buildItemSelection m
        let ctx := buildCustomerContext m
        let out := runBatch m sel ctx createCode db pendingDiscounts
        let remaining := countPending out.1 setId
        (.ok { success := true, complete := decide (remaining = 0)
               processed := out.2, remaining := remaining
               message :=
                 if 0 < remaining then
                   "Processed " ++ toString out.2 ++ " discounts. "
                     ++ toString remaining ++ " remaining..."
                 else "Batch complete. Processed " ++ toString out.2 ++ " discounts." },
         out.1)

/-- Result of the submission-time validation query as the handler sees
it: a GraphQL errors array, a response whose discountNode or discount
is null, or a found discount title. -/
inductive TemplateLookup where
  | errors (firstMessage : String)
  | notFound
  | found (title : String)

/-- The id normalisation at submission: plain ids are wrapped in the
gid prefix. -/
def formatMasterDiscountId (raw : String) : String :=
  if raw.startsWith "gid://" then raw
  else "gid://shopify/DiscountCodeNode/" ++ raw

/-- The success payload of a `create_discounts` call. -/
structure SubmitOk where
  message : String
  discountSetId : String
  totalCodes : Nat
deriving DecidableEq, Repr

/-- The whole persisted state: the two row lists. -/
structure AppDb where
  sets : List DiscountSet
  discounts : List Discount
deriving DecidableEq, Repr

/-- The `create_discounts` action: normalise the template id, validate
it against the gateway, and only then persist the set row and the bulk
of PENDING item rows.  Fresh primary keys are supplied by the caller
(the database generates them). -/
def create_discounts (st : AppDb) (shop : String) (masterDiscountId : String)
    (discountSetName : String) (codes : List String)
    (lookup : String → TemplateLookup)
    (newSetId : String) (freshItemId : Nat → String) :
    ActionResult SubmitOk × AppDb :=
  let fid := formatMasterDiscountId masterDiscountId
  match lookup fid with
  | .errors msg =>
      (.error ("GraphQL Error: " ++ msg ++ ". Using ID: " ++ fid), st)
  | .notFound =>
      (.error ("Master discount not found with ID: " ++ fid
        ++ ". Please check if the discount exists."), st)
  | .found _ =>
      let dset : DiscountSet :=
        { id := newSetId, name := discountSetName, shop := shop, masterDiscountId := fid }
      let rows := codes.enum.map fun p =>
        ({ id := freshItemId p.1, shop := shop, shopifyId := none, code := p.2
           masterDiscountId := fid, discountSetId := some newSetId
           status := .PENDING, errorMessage := none } : Discount)
      (.ok { message := "Queued " ++ toString codes.length
               ++ " discount codes. Processing will begin automatically..."
             discountSetId := newSetId, totalCodes := codes.length },
       { sets := st.sets ++ [dset], discounts := st.discounts ++ rows })

/-- The success payload of a `retry_failed` call. -/
structure RetryResult where
  message : String
  pendingCount : Nat
deriving DecidableEq, Repr

/-- The `retry_failed` action: the Prisma updateMany setting every
FAILED row of the set back to PENDING with a null errorMessage, then
the recomputed pending count. -/
def retry_failed (db : List Discount) (setId : String) : RetryResult × List Discount :=
  let db2 := db.map fun d =>
    if d.discountSetId = some setId ∧ d.status = .FAILED then
      { d with status := .PENDING, errorMessage := none }
    else d
  let pendingCount := countPending db2 setId
  ({ message := toString pendingCount ++ " failed discounts have been queued for retry."
     pendingCount := pendingCount }, db2)

/-- The status invariant of the data model: each status determines
exactly which of shopifyId and errorMessage are set. -/
def statusInvariant (d : Discount) : Prop :=
  (d.status = .CREATED ↔ d.shopifyId ≠ none ∧ d.errorMessage = none) ∧
  (d.status = .FAILED ↔ d.errorMessage ≠ none ∧ d.shopifyId = none) ∧
  (d.status = .PENDING ↔ d.shopifyId = none ∧ d.errorMessage = none)

instance (d : Discount) : Decidable (statusInvariant d) := by
  unfold statusInvariant; infer_instance

/-- The invariant over a whole row list. -/
def dbInvariant (db : List Discount) : Prop := ∀ d ∈ db, statusInvariant d

instance (db : List Discount) : Decidable (dbInvariant db) := by
  unfold dbInvariant; infer_instance

/-- Projects processed, remaining and complete out of a successful
process result. -/
def resultTriple : ActionResult ProcessResult → Option (Nat × Nat × Bool)
  | .ok r => some (r.processed, r.remaining, r.complete)
  | .error _ => none

/-- Projects the complete flag out of a successful process result. -/
def completeFlag : ActionResult ProcessResult → Option Bool
  | .ok r => some r.complete
  | .error _ => none

/-- The database part of the batch loop alone (the processed counter
stripped off); `runBatch_eq` relates it to `runBatch`. -/
def runBatchDb (m : MasterDiscount) (sel : ItemSelection) (ctx : CustomerContext)
    (createCode : DiscountInput → CreateReply)
    (db : List Discount) (claimed : List Discount) : List Discount :=
  claimed.foldl
    (fun cur item => updateById cur item.id (processItem m sel ctx createCode item.code)) db

/-- Parameters of one polled `process_pending` invocation. -/
structure CallParams where
  setId : String
  fetchMaster : String → FetchReply
  createCode : DiscountInput → CreateReply

/-- A sequence of `process_pending` invocations threaded through the
database, as issued by the client polling loop. -/
def runCalls (sets : List DiscountSet) (db : List Discount) (calls : List CallParams) :
    List Discount :=
  calls.foldl (fun cur p => (process_pending sets cur p.setId p.fetchMaster p.createCode).2) db

/-- A master discount whose usage limit is 3 and whose once-per-customer
flag is false. -/
def multiUseTemplate : MasterDiscount :=
  { title := "Master"
    minimumRequirement := none
    value := { percentage := some 10, amount := none }
    items := { allItems := some true, products := none, collections := none }
    context := { all := some true, customers := none }
    usageLimit := some 3
    appliesOncePerCustomer := false
    startsAt := "2024-01-01T00:00:00Z"
    endsAt := none }

/-- The master discount of the 12-code scenario: percentage 10,
all-items scope, all-customers audience. -/
def scTemplate : MasterDiscount :=
  { title := "Scenario"
    minimumRequirement := none
    value := { percentage := some 10, amount := none }
    items := { allItems := some true, products := none, collections := none }
    context := { all := some true, customers := none }
    usageLimit := some 1
    appliesOncePerCustomer := true
    startsAt := "2024-01-01T00:00:00Z"
    endsAt := none }

/-- The discount set of the 12-code scenario. -/
def scSet : DiscountSet :=
  { id := "set1", name := "Scenario Set", shop := "shop1", masterDiscountId := "gid://m1" }

/-- One PENDING row of the 12-code scenario. -/
def scRow (n : Nat) : Discount :=
  { id := "d" ++ toString n
    shop := "shop1"
    shopifyId := none
    code := "CODE" ++ toString n
    masterDiscountId := "gid://m1"
    discountSetId := some "set1"
    status := .PENDING
    errorMessage := none }

/-- The freshly submitted scenario database: 12 PENDING rows. -/
def scDb0 : List Discount := (List.range 12).map scRow

/-- A gateway fetch that always finds the scenario master discount. -/
def scFetch : String → FetchReply := fun _ => .response (some scTemplate)

/-- A gateway create that always succeeds, returning a remote id
derived from the code. -/
def scCreate : DiscountInput → CreateReply := fun input =>
  .response { userErrors := none, codeDiscountNode := some ("gid://new/" ++ input.code) }

/-- A gateway create that rejects exactly the code CODE0 with a field
error and succeeds on everything else. -/
def scCreateRejectFirst : DiscountInput → CreateReply := fun input =>
  if input.code = "CODE0" then
    .response { userErrors := some [{ field := "code", message := "taken" }]
                codeDiscountNode := none }
  else
    .response { userErrors := none, codeDiscountNode := some ("gid://new/" ++ input.code) }

/-- First polled call of the 12-code scenario. -/
def scStep1 : ActionResult ProcessResult × List Discount :=
  process_pending [scSet] scDb0 "set1" scFetch scCreate

/-- Second polled call of the 12-code scenario. -/
def scStep2 : ActionResult ProcessResult × List Discount :=
  process_pending [scSet] scStep1.2 "set1" scFetch scCreate

/-- Third polled call of the 12-code scenario. -/
def scStep3 : ActionResult ProcessResult × List Discount :=
  process_pending [scSet] scStep2.2 "set1" scFetch scCreate

/-- A CREATED row used in concrete witnesses. -/
def wRowCreated : Discount :=
  { id := "c1", shop := "shop1", shopifyId := some "gid://old/1", code := "OLD1"
    masterDiscountId := "gid://m1", discountSetId := some "set1"
    status := .CREATED, errorMessage := none }

/-- A FAILED row used in concrete witnesses. -/
def wRowFailed : Discount :=
  { id := "f1", shop := "shop1", shopifyId := none, code := "BAD1"
    masterDiscountId := "gid://m1", discountSetId := some "set1"
    status := .FAILED, errorMessage := some "boom" }

/-- An empty persisted state used in concrete witnesses. -/
def wSt : AppDb := { sets := [], discounts := [] }

/-- A submission-time lookup that always finds the master. -/
def wLookupOk : String → TemplateLookup := fun _ => .found "Master"

/-- A submission-time lookup that never finds the master. -/
def wLookupMissing : String → TemplateLookup := fun _ => .notFound

/-- A fresh-id supply used in concrete witnesses. -/
def wFresh : Nat → String := fun n => "new" ++ toString n

/-- A gateway fetch whose discount is always missing. -/
def wFetchMissing : String → FetchReply := fun _ => .response none

/-- A gateway fetch that always throws. -/
def wFetchThrown : String → FetchReply := fun _ => .thrown (some "socket hang up")

/-- One field error used in concrete witnesses. -/
def wErr : UserError := { field := "code", message := "taken" }

/-- Projects the processed count out of a successful process result. -/
def processedCountOf : ActionResult ProcessResult → Option Nat
  | .ok r => some r.processed
  | .error _ => none

theorem markCreated_id (r : String) (d : Discount) : (markCreated r d).id = d.id := rfl

theorem markFailed_id (msg : String) (d : Discount) : (markFailed msg d).id = d.id := rfl

theorem applyReply_cases (reply : CreateReply) (d : Discount) :
    (∃ msg, applyReply reply d = markFailed msg d) ∨
    (∃ rid, applyReply reply d = markCreated rid d) := by
  unfold applyReply
  cases reply with
  | thrown msg => exact Or.inl ⟨_, rfl⟩
  | response r =>
    dsimp only
    split
    · exact Or.inl ⟨_, rfl⟩
    · cases r.codeDiscountNode with
      | none => exact Or.inl ⟨_, rfl⟩
      | some rid => exact Or.inr ⟨rid, rfl⟩

theorem processItem_cases (m : MasterDiscount) (sel : ItemSelection) (ctx : CustomerContext)
    (cc : DiscountInput → CreateReply) (code : String) (d : Discount) :
    (∃ msg, processItem m sel ctx cc code d = markFailed msg d) ∨
    (∃ rid, processItem m sel ctx cc code d = markCreated rid d) := by
  unfold processItem
  cases discountInput m sel ctx code with
  | none => exact Or.inl ⟨_, rfl⟩
  | some input => exact applyReply_cases (cc input) d

theorem processItem_id (m : MasterDiscount) (sel : ItemSelection) (ctx : CustomerContext)
    (cc : DiscountInput → CreateReply) (code : String) (d : Discount) :
    (processItem m sel ctx cc code d).id = d.id := by
  rcases processItem_cases m sel ctx cc code d with ⟨msg, h⟩ | ⟨rid, h⟩ <;> rw [h] <;> rfl

theorem updateById_getElem? (db : List Discount) (i : String) (f : Discount → Discount)
    (k : Nat) :
    (updateById db i f)[k]? = db[k]?.map fun d => if d.id = i then f d else d := by
  simp [updateById, List.getElem?_map]

theorem updateById_map_id (db : List Discount) (i : String) (f : Discount → Discount)
    (hf : ∀ d, (f d).id = d.id) :
    (updateById db i f).map Discount.id = db.map Discount.id := by
  simp only [updateById, List.map_map]
  apply List.map_congr_left
  intro d _
  by_cases h : d.id = i <;> simp [h, hf]

theorem runBatchDb_nil (m : MasterDiscount) (sel : ItemSelection) (ctx : CustomerContext)
    (cc : DiscountInput → CreateReply) (db : List Discount) :
    runBatchDb m sel ctx cc db [] = db := rfl

theorem runBatchDb_cons (m : MasterDiscount) (sel : ItemSelection) (ctx : CustomerContext)
    (cc : DiscountInput → CreateReply) (db : List Discount) (c : Discount)
    (cs : List Discount) :
    runBatchDb m sel ctx cc db (c :: cs) =
      runBatchDb m sel ctx cc (updateById db c.id (processItem m sel ctx cc c.code)) cs := rfl

theorem runBatch_eq (m : MasterDiscount) (sel : ItemSelection) (ctx : CustomerContext)
    (cc : DiscountInput → CreateReply) (db : List Discount) (claimed : List Discount) :
    runBatch m sel ctx cc db claimed = (runBatchDb m sel ctx cc db claimed, claimed.length) := by
  suffices h : ∀ (cs : List Discount) (cur : List Discount) (n : Nat),
      cs.foldl (fun acc item =>
          (updateById acc.1 item.id (processItem m sel ctx cc item.code), acc.2 + 1)) (cur, n) =
        (runBatchDb m sel ctx cc cur cs, n + cs.length) by
    simpa [runBatch] using h claimed db 0
  intro cs
  induction cs with
  | nil => intro cur n; simp [runBatchDb]
  | cons c cs ih =>
    intro cur n
    simp only [List.foldl_cons, ih, runBatchDb_cons, List.length_cons]
    exact Prod.ext rfl (by omega)

theorem runBatchDb_map_id (m : MasterDiscount) (sel : ItemSelection) (ctx : CustomerContext)
    (cc : DiscountInput → CreateReply) (claimed : List Discount) (db : List Discount) :
    (runBatchDb m sel ctx cc db claimed).map Discount.id = db.map Discount.id := by
  induction claimed generalizing db with
  | nil => rfl
  | cons c cs ih =>
    rw [runBatchDb_cons, ih, updateById_map_id]
    exact fun d => processItem_id m sel ctx cc c.code d

theorem runBatchDb_length (m : MasterDiscount) (sel : ItemSelection) (ctx : CustomerContext)
    (cc : DiscountInput → CreateReply) (claimed : List Discount) (db : List Discount) :
    (runBatchDb m sel ctx cc db claimed).length = db.length := by
  have h := congrArg List.length (runBatchDb_map_id m sel ctx cc claimed db)
  simpa using h

theorem runBatchDb_getElem?_not_mem (m : MasterDiscount) (sel : ItemSelection)
    (ctx : CustomerContext) (cc : DiscountInput → CreateReply)
    (claimed : List Discount) (db : List Discount) (k : Nat) (d : Discount)
    (hget : db[k]? = some d) (hid : d.id ∉ claimed.map Discount.id) :
    (runBatchDb m sel ctx cc db claimed)[k]? = some d := by
  induction claimed generalizing db with
  | nil => simpa [runBatchDb]
  | cons c cs ih =>
    rw [List.map_cons] at hid
    rw [runBatchDb_cons]
    apply ih
    · rw [updateById_getElem?, hget]
      have hne : d.id ≠ c.id := fun h => hid (by simp [h])
      simp [hne]
    · intro h
      exact hid (List.mem_cons_of_mem _ h)

theorem runBatchDb_getElem?_mem (m : MasterDiscount) (sel : ItemSelection)
    (ctx : CustomerContext) (cc : DiscountInput → CreateReply)
    (claimed : List Discount) (db : List Discount) (c : Discount)
    (hc : c ∈ claimed) (hnd : (claimed.map Discount.id).Nodup)
    (k : Nat) (d : Discount) (hget : db[k]? = some d) (hid : d.id = c.id) :
    (runBatchDb m sel ctx cc db claimed)[k]? =
      some (processItem m sel ctx cc c.code d) := by
  induction claimed generalizing db with
  | nil => cases hc
  | cons c0 cs ih =>
    rw [runBatchDb_cons]
    rw [List.map_cons, List.nodup_cons] at hnd
    rcases List.mem_cons.mp hc with hceq | hcs
    · subst hceq
      have hget2 : (updateById db c.id (processItem m sel ctx cc c.code))[k]? =
          some (processItem m sel ctx cc c.code d) := by
        rw [updateById_getElem?, hget]
        simp [hid]
      apply runBatchDb_getElem?_not_mem m sel ctx cc cs _ k _ hget2
      rw [processItem_id, hid]
      exact hnd.1
    · have hcid : c.id ∈ cs.map Discount.id := List.mem_map_of_mem Discount.id hcs
      have hne : d.id ≠ c0.id := by
        rw [hid]
        intro h
        exact hnd.1 (h ▸ hcid)
      have hget2 : (updateById db c0.id (processItem m sel ctx cc c0.code))[k]? = some d := by
        rw [updateById_getElem?, hget]
        simp [hne]
      exact ih _ hcs hnd.2 hget2

theorem claimPending_sublist (db : List Discount) (setId : String) :
    List.Sublist (claimPending db setId) db :=
  (List.take_sublist _ _).trans (List.filter_sublist _)

theorem claimPending_subset (db : List Discount) (setId : String) :
    ∀ c ∈ claimPending db setId, c ∈ db :=
  fun _ hc => (claimPending_sublist db setId).subset hc

theorem claimPending_pending (db : List Discount) (setId : String) :
    ∀ c ∈ claimPending db setId, c.discountSetId = some setId ∧ c.status = .PENDING := by
  intro c hc
  have h : c ∈ db.filter fun d => decide (d.discountSetId = some setId ∧ d.status = .PENDING) :=
    List.mem_of_mem_take hc
  exact of_decide_eq_true (List.mem_filter.mp h).2

theorem claimPending_nodup (db : List Discount) (setId : String)
    (hnd : (db.map Discount.id).Nodup) :
    ((claimPending db setId).map Discount.id).Nodup :=
  List.Nodup.sublist ((claimPending_sublist db setId).map Discount.id) hnd

theorem claimPending_nil_iff (db : List Discount) (setId : String) :
    claimPending db setId = [] ↔ countPending db setId = 0 := by
  unfold claimPending countPending BATCH_SIZE
  rw [List.length_eq_zero, List.take_eq_nil_iff]
  simp

theorem nodupIds_inj {db : List Discount} (hnd : (db.map Discount.id).Nodup)
    {c d : Discount} (hc : c ∈ db) (hd : d ∈ db) (hid : c.id = d.id) : c = d :=
  List.inj_on_of_nodup_map hnd hc hd hid

theorem markFailed_statusInvariant (msg : String) (d : Discount)
    (hs : d.shopifyId = none) : statusInvariant (markFailed msg d) := by
  unfold statusInvariant markFailed
  simp [hs]

theorem markCreated_statusInvariant (rid : String) (d : Discount)
    (he : d.errorMessage = none) : statusInvariant (markCreated rid d) := by
  unfold statusInvariant markCreated
  simp [he]

theorem processItem_statusInvariant (m : MasterDiscount) (sel : ItemSelection)
    (ctx : CustomerContext) (cc : DiscountInput → CreateReply) (code : String)
    (d : Discount) (hinv : statusInvariant d) (hp : d.status = .PENDING) :
    statusInvariant (processItem m sel ctx cc code d) := by
  have hs := hinv.2.2.mp hp
  rcases processItem_cases m sel ctx cc code d with ⟨msg, h⟩ | ⟨rid, h⟩
  · rw [h]
    exact markFailed_statusInvariant msg d hs.1
  · rw [h]
    exact markCreated_statusInvariant rid d hs.2

theorem process_pending_no_set (sets : List DiscountSet) (db : List Discount)
    (setId : String) (fm : String → FetchReply) (cc : DiscountInput → CreateReply)
    (h : sets.find? (fun s => decide (s.id = setId)) = none) :
    process_pending sets db setId fm cc = (.error "Discount set not found", db) := by
  unfold process_pending
  rw [h]

theorem process_pending_empty (sets : List DiscountSet) (db : List Discount)
    (setId : String) (fm : String → FetchReply) (cc : DiscountInput → CreateReply)
    (dset : DiscountSet)
    (hfind : sets.find? (fun s => decide (s.id = setId)) = some dset)
    (hnil : claimPending db setId = []) :
    process_pending sets db setId fm cc =
      (.ok { success := true, complete := true
             message := "Processing complete. Created: "
               ++ toString (countStatus db setId .CREATED)
               ++ ", Failed: " ++ toString (countStatus db setId .FAILED)
             processed := 0, remaining := 0 }, db) := by
  unfold process_pending
  rw [hfind]
  simp [hnil]

theorem process_pending_fetch_none (sets : List DiscountSet) (db : List Discount)
    (setId : String) (fm : String → FetchReply) (cc : DiscountInput → CreateReply)
    (dset : DiscountSet)
    (hfind : sets.find? (fun s => decide (s.id = setId)) = some dset)
    (hne : claimPending db setId ≠ [])
    (hm : fm dset.masterDiscountId = .response none) :
    process_pending sets db setId fm cc = (.error "Master discount no longer exists", db) := by
  unfold process_pending
  rw [hfind]
  simp only [List.isEmpty_iff]
  rw [if_neg hne, hm]

theorem process_pending_fetch_thrown (sets : List DiscountSet) (db : List Discount)
    (setId : String) (fm : String → FetchReply) (cc : DiscountInput → CreateReply)
    (dset : DiscountSet) (msg : Option String)
    (hfind : sets.find? (fun s => decide (s.id = setId)) = some dset)
    (hne : claimPending db setId ≠ [])
    (hm : fm dset.masterDiscountId = .thrown msg) :
    process_pending sets db setId fm cc = (.error (msg.getD "An error occurred"), db) := by
  unfold process_pending
  rw [hfind]
  simp only [List.isEmpty_iff]
  rw [if_neg hne, hm]

theorem process_pending_batch (sets : List DiscountSet) (db : List Discount)
    (setId : String) (fm : String → FetchReply) (cc : DiscountInput → CreateReply)
    (dset : DiscountSet) (m : MasterDiscount)
    (hfind : sets.find? (fun s => decide (s.id = setId)) = some dset)
    (hne : claimPending db setId ≠ [])
    (hm : fm dset.masterDiscountId = .response (some m)) :
    process_pending sets db setId fm cc =
      (.ok { success := true
             complete := decide (countPending (runBatchDb m (buildItemSelection m)
               (buildCustomerContext m) cc db (claimPending db setId)) setId = 0)
             processed := (claimPending db setId).length
             remaining := countPending (runBatchDb m (buildItemSelection m)
               (buildCustomerContext m) cc db (claimPending db setId)) setId
             message :=
               if 0 < countPending (runBatchDb m (buildItemSelection m)
                   (buildCustomerContext m) cc db (claimPending db setId)) setId then
                 "Processed " ++ toString (claimPending db setId).length ++ " discounts. "
                   ++ toString (countPending (runBatchDb m (buildItemSelection m)
                     (buildCustomerContext m) cc db (claimPending db setId)) setId)
                   ++ " remaining..."
               else
                 "Batch complete. Processed " ++ toString (claimPending db setId).length
                   ++ " discounts." },
       runBatchDb m (buildItemSelection m) (buildCustomerContext m) cc db
         (claimPending db setId)) := by
  unfold process_pending
  rw [hfind]
  simp only [List.isEmpty_iff]
  rw [if_neg hne, hm]
  simp [runBatch_eq]

theorem runBatchDb_claim_dbInvariant (m : MasterDiscount) (sel : ItemSelection)
    (ctx : CustomerContext) (cc : DiscountInput → CreateReply)
    (db : List Discount) (setId : String)
    (hnd : (db.map Discount.id).Nodup) (hinv : dbInvariant db) :
    dbInvariant (runBatchDb m sel ctx cc db (claimPending db setId)) := by
  intro e he
  obtain ⟨k, hk⟩ := List.mem_iff_getElem?.mp he
  have hklt : k < db.length := by
    rcases List.getElem?_eq_some.mp hk with ⟨h, _⟩
    rwa [runBatchDb_length] at h
  have hd : db[k]? = some db[k] := List.getElem?_eq_getElem hklt
  have hdm : db[k] ∈ db := List.getElem_mem hklt
  by_cases hmem : (db[k]).id ∈ (claimPending db setId).map Discount.id
  · obtain ⟨c, hc, hcid⟩ := List.mem_map.mp hmem
    have hcd : c = db[k] :=
      nodupIds_inj hnd (claimPending_subset db setId c hc) hdm hcid
    have hrow := runBatchDb_getElem?_mem m sel ctx cc (claimPending db setId) db c hc
      (claimPending_nodup db setId hnd) k db[k] hd hcid.symm
    rw [hrow] at hk
    cases hk
    exact processItem_statusInvariant m sel ctx cc c.code db[k] (hinv _ hdm)
      (hcd ▸ (claimPending_pending db setId c hc).2)
  · have hrow := runBatchDb_getElem?_not_mem m sel ctx cc (claimPending db setId) db k
      db[k] hd hmem
    rw [hrow] at hk
    cases hk
    exact hinv _ hdm

theorem process_pending_map_id (sets : List DiscountSet) (db : List Discount)
    (setId : String) (fm : String → FetchReply) (cc : DiscountInput → CreateReply) :
    ((process_pending sets db setId fm cc).2).map Discount.id = db.map Discount.id := by
  cases hfind : sets.find? (fun s => decide (s.id = setId)) with
  | none => rw [process_pending_no_set sets db setId fm cc hfind]
  | some dset =>
    by_cases hnil : claimPending db setId = []
    · rw [process_pending_empty sets db setId fm cc dset hfind hnil]
    · cases hm : fm dset.masterDiscountId with
      | thrown msg => rw [process_pending_fetch_thrown sets db setId fm cc dset msg hfind hnil hm]
      | response om =>
        cases om with
        | none => rw [process_pending_fetch_none sets db setId fm cc dset hfind hnil hm]
        | some m =>
          rw [process_pending_batch sets db setId fm cc dset m hfind hnil hm]
          exact runBatchDb_map_id m _ _ cc _ db

theorem process_pending_dbInvariant (sets : List DiscountSet) (db : List Discount)
    (setId : String) (fm : String → FetchReply) (cc : DiscountInput → CreateReply)
    (hnd : (db.map Discount.id).Nodup) (hinv : dbInvariant db) :
    dbInvariant (process_pending sets db setId fm cc).2 := by
  cases hfind : sets.find? (fun s => decide (s.id = setId)) with
  | none => rw [process_pending_no_set sets db setId fm cc hfind]; exact hinv
  | some dset =>
    by_cases hnil : claimPending db setId = []
    · rw [process_pending_empty sets db setId fm cc dset hfind hnil]; exact hinv
    · cases hm : fm dset.masterDiscountId with
      | thrown msg =>
        rw [process_pending_fetch_thrown sets db setId fm cc dset msg hfind hnil hm]
        exact hinv
      | response om =>
        cases om with
        | none =>
          rw [process_pending_fetch_none sets db setId fm cc dset hfind hnil hm]
          exact hinv
        | some m =>
          rw [process_pending_batch sets db setId fm cc dset m hfind hnil hm]
          exact runBatchDb_claim_dbInvariant m _ _ cc db setId hnd hinv

theorem process_pending_frozen (sets : List DiscountSet) (db : List Discount)
    (setId : String) (fm : String → FetchReply) (cc : DiscountInput → CreateReply)
    (hnd : (db.map Discount.id).Nodup) (k : Nat) (d : Discount)
    (hget : db[k]? = some d) (hst : d.status ≠ .PENDING) :
    (process_pending sets db setId fm cc).2[k]? = some d := by
  cases hfind : sets.find? (fun s => decide (s.id = setId)) with
  | none => rw [process_pending_no_set sets db setId fm cc hfind]; exact hget
  | some dset =>
    by_cases hnil : claimPending db setId = []
    · rw [process_pending_empty sets db setId fm cc dset hfind hnil]; exact hget
    · cases hm : fm dset.masterDiscountId with
      | thrown msg =>
        rw [process_pending_fetch_thrown sets db setId fm cc dset msg hfind hnil hm]
        exact hget
      | response om =>
        cases om with
        | none =>
          rw [process_pending_fetch_none sets db setId fm cc dset hfind hnil hm]
          exact hget
        | some m =>
          rw [process_pending_batch sets db setId fm cc dset m hfind hnil hm]
          apply runBatchDb_getElem?_not_mem m _ _ cc (claimPending db setId) db k d hget
          intro hmem
          obtain ⟨c, hc, hcid⟩ := List.mem_map.mp hmem
          have hdm : d ∈ db := List.mem_iff_getElem?.mpr ⟨k, hget⟩
          have hcd : c = d := nodupIds_inj hnd (claimPending_subset db setId c hc) hdm hcid
          exact hst (hcd ▸ (claimPending_pending db setId c hc).2)

/-- C1: the claim states that every creation request carries usage
limit 1 and once-per-customer true regardless of the master template.
The `process_pending` request builder instead copies both fields
verbatim from the master: for a master with usage limit 3 and
once-per-customer false, the built request carries usage limit 3 and
once-per-customer false. -/
theorem c1_usage_limit_copied_from_template :
    (discountInput multiUseTemplate (buildItemSelection multiUseTemplate)
        (buildCustomerContext multiUseTemplate) "CODE1").map DiscountInput.usageLimit =
      some (some 3) ∧
    (discountInput multiUseTemplate (buildItemSelection multiUseTemplate)
        (buildCustomerContext multiUseTemplate) "CODE1").map
          DiscountInput.appliesOncePerCustomer = some false := by
  exact ⟨rfl, rfl⟩

/-- C4: when at least one PENDING item was claimed and the master
discount fetch finds no discount or throws, the whole `process_pending`
call returns a single batch-level error and leaves the database
(hence every item status and error message) unchanged. -/
theorem c4_template_fetch_failure_batch_level (sets : List DiscountSet)
    (db : List Discount) (setId : String) (fm : String → FetchReply)
    (cc : DiscountInput → CreateReply) (dset : DiscountSet)
    (hfind : sets.find? (fun s => decide (s.id = setId)) = some dset)
    (hne : claimPending db setId ≠ []) :
    (fm dset.masterDiscountId = .response none →
      process_pending sets db setId fm cc = (.error "Master discount no longer exists", db)) ∧
    (∀ msg, fm dset.masterDiscountId = .thrown msg →
      process_pending sets db setId fm cc = (.error (msg.getD "An error occurred"), db)) :=
  ⟨process_pending_fetch_none sets db setId fm cc dset hfind hne,
   fun msg => process_pending_fetch_thrown sets db setId fm cc dset msg hfind hne⟩

/-- Witness for C4 at a concrete one-row database, covering both the
missing-discount response and the thrown fetch. -/
theorem c4_template_fetch_failure_batch_level_witness :
    process_pending [scSet] [scRow 0] "set1" wFetchMissing scCreate =
      (.error "Master discount no longer exists", [scRow 0]) ∧
    process_pending [scSet] [scRow 0] "set1" wFetchThrown scCreate =
      (.error "socket hang up", [scRow 0]) :=
  ⟨(c4_template_fetch_failure_batch_level [scSet] [scRow 0] "set1" wFetchMissing scCreate
      scSet rfl (by decide)).1 rfl,
   (c4_template_fetch_failure_batch_level [scSet] [scRow 0] "set1" wFetchThrown scCreate
      scSet rfl (by decide)).2 (some "socket hang up") rfl⟩

/-- C8: when the submission-time validation query reports GraphQL
errors or no discount, `create_discounts` returns an error and the
persisted state is unchanged: no DiscountSet row and no Discount rows
are created. -/
theorem c8_submit_validation_rejects_without_persisting (st : AppDb)
    (shop mdid setName : String) (codes : List String)
    (lookup : String → TemplateLookup) (newSetId : String) (fresh : Nat → String) :
    (∀ msg, lookup (formatMasterDiscountId mdid) = .errors msg →
      create_discounts st shop mdid setName codes lookup newSetId fresh =
        (.error ("GraphQL Error: " ++ msg ++ ". Using ID: "
          ++ formatMasterDiscountId mdid), st)) ∧
    (lookup (formatMasterDiscountId mdid) = .notFound →
      create_discounts st shop mdid setName codes lookup newSetId fresh =
        (.error ("Master discount not found with ID: " ++ formatMasterDiscountId mdid
          ++ ". Please check if the discount exists."), st)) := by
  constructor
  · intro msg h
    simp only [create_discounts]
    rw [h]
  · intro h
    simp only [create_discounts]
    rw [h]

/-- Witness for C8 at a concrete submission whose lookup fails. -/
theorem c8_submit_validation_rejects_without_persisting_witness :
    create_discounts wSt "shop1" "123" "Set" ["A", "B"] wLookupMissing "set1" wFresh =
      (.error ("Master discount not found with ID: "
        ++ formatMasterDiscountId "123" ++ ". Please check if the discount exists."), wSt) :=
  (c8_submit_validation_rejects_without_persisting wSt "shop1" "123" "Set" ["A", "B"]
    wLookupMissing "set1" wFresh).2 rfl

/-- C9: for a master whose value is percentage 10 and whose item scope
is all-items, the request built for any code carries the percentage-10
value and the all-items selection. -/
theorem c9_percentage_ten_all_items (m : MasterDiscount) (code : String)
    (hp : m.value.percentage = some 10)
    (hi : m.items.allItems = some true) :
    buildItemSelection m = .all ∧
    (discountInput m (buildItemSelection m) (buildCustomerContext m) code).map
      DiscountInput.value = some (.percentage 10) ∧
    (discountInput m (buildItemSelection m) (buildCustomerContext m) code).map
      DiscountInput.items = some .all := by
  have hsel : buildItemSelection m = .all := by
    unfold buildItemSelection
    rw [hi]
    simp [jsTruthyBool]
  have hv : buildInputValue m.value = some (.percentage 10) := by
    unfold buildInputValue
    rw [hp]
    simp [jsTruthyNum, hp]
  refine ⟨hsel, ?_, ?_⟩ <;> unfold discountInput <;> rw [hv] <;> simp [hsel]

/-- Witness for C9 at the concrete scenario master. -/
theorem c9_percentage_ten_all_items_witness :
    buildItemSelection scTemplate = .all ∧
    (discountInput scTemplate (buildItemSelection scTemplate)
      (buildCustomerContext scTemplate) "ANYCODE").map
      DiscountInput.value = some (.percentage 10) ∧
    (discountInput scTemplate (buildItemSelection scTemplate)
      (buildCustomerContext scTemplate) "ANYCODE").map
      DiscountInput.items = some .all :=
  c9_percentage_ten_all_items scTemplate "ANYCODE" rfl rfl

/-- C10: a `process_pending` call that returns a success payload
reports as processed exactly the number of claimed items, whatever the
gateway replied for each of them; an item marked FAILED is counted
exactly like one marked CREATED. -/
theorem c10_processed_equals_claimed (sets : List DiscountSet) (db : List Discount)
    (setId : String) (fm : String → FetchReply) (cc : DiscountInput → CreateReply)
    (n : Nat)
    (h : processedCountOf (process_pending sets db setId fm cc).1 = some n) :
    n = (claimPending db setId).length := by
  cases hfind : sets.find? (fun s => decide (s.id = setId)) with
  | none =>
    rw [process_pending_no_set sets db setId fm cc hfind] at h
    exact absurd h (by simp [processedCountOf])
  | some dset =>
    by_cases hnil : claimPending db setId = []
    · rw [process_pending_empty sets db setId fm cc dset hfind hnil] at h
      simp only [processedCountOf, Option.some.injEq] at h
      rw [← h, hnil]
      rfl
    · cases hm : fm dset.masterDiscountId with
      | thrown msg =>
        rw [process_pending_fetch_thrown sets db setId fm cc dset msg hfind hnil hm] at h
        exact absurd h (by simp [processedCountOf])
      | response om =>
        cases om with
        | none =>
          rw [process_pending_fetch_none sets db setId fm cc dset hfind hnil hm] at h
          exact absurd h (by simp [processedCountOf])
        | some m =>
          rw [process_pending_batch sets db setId fm cc dset m hfind hnil hm] at h
          simp only [processedCountOf, Option.some.injEq] at h
          exact h.symm

/-- Witness for C10 at the 12-row scenario database with a gateway
that rejects the first code: the failing item is still counted. -/
theorem c10_processed_equals_claimed_witness :
    5 = (claimPending scDb0 "set1").length :=
  c10_processed_equals_claimed [scSet] scDb0 "set1" scFetch scCreateRejectFirst 5 (by decide)

/-- C2: each store operation preserves the status invariant: the bulk
insert of `create_discounts` adds only PENDING rows with null remote id
and error message; the per-item updates of `process_pending` (its
markCreated and markFailed writes) keep every row consistent; and
`retry_failed` keeps every row consistent. -/
theorem c2_store_ops_preserve_status_invariant
    (st : AppDb) (shop mdid setName : String) (codes : List String)
    (lookup : String → TemplateLookup) (newSetId : String) (fresh : Nat → String)
    (sets : List DiscountSet) (db : List Discount) (setId : String)
    (fm : String → FetchReply) (cc : DiscountInput → CreateReply) :
    (dbInvariant st.discounts →
      dbInvariant
        (create_discounts st shop mdid setName codes lookup newSetId fresh).2.discounts) ∧
    ((db.map Discount.id).Nodup → dbInvariant db →
      dbInvariant (process_pending sets db setId fm cc).2) ∧
    (dbInvariant db → dbInvariant (retry_failed db setId).2) := by
  refine ⟨?_, fun hnd hinv => process_pending_dbInvariant sets db setId fm cc hnd hinv, ?_⟩
  · intro hinv
    simp only [create_discounts]
    split
    · exact hinv
    · exact hinv
    · intro e he
      rcases List.mem_append.mp he with h | h
      · exact hinv e h
      · obtain ⟨p, _, rfl⟩ := List.mem_map.mp h
        unfold statusInvariant
        simp
  · intro hinv e he
    have h2 : (retry_failed db setId).2 = db.map fun d =>
        if d.discountSetId = some setId ∧ d.status = .FAILED then
          { d with status := .PENDING, errorMessage := none }
        else d := rfl
    rw [h2] at he
    obtain ⟨d, hd, rfl⟩ := List.mem_map.mp he
    by_cases hcond : d.discountSetId = some setId ∧ d.status = .FAILED
    · rw [if_pos hcond]
      have hs := (hinv d hd).2.1.mp hcond.2
      unfold statusInvariant
      simp [hs.2]
    · rw [if_neg hcond]
      exact hinv d hd

/-- Witness for C2: the three conjuncts applied at concrete states. -/
theorem c2_store_ops_preserve_status_invariant_witness :
    dbInvariant (create_discounts wSt "shop1" "123" "Set" ["A"] wLookupOk "set1"
      wFresh).2.discounts ∧
    dbInvariant (process_pending [scSet] [scRow 0, wRowFailed] "set1" scFetch scCreate).2 ∧
    dbInvariant (retry_failed [wRowCreated, wRowFailed] "set1").2 := by
  have hc := c2_store_ops_preserve_status_invariant wSt "shop1" "123" "Set" ["A"] wLookupOk
    "set1" wFresh [scSet] [scRow 0, wRowFailed] "set1" scFetch scCreate
  have hr := c2_store_ops_preserve_status_invariant wSt "shop1" "123" "Set" ["A"] wLookupOk
    "set1" wFresh [scSet] [wRowCreated, wRowFailed] "set1" scFetch scCreate
  exact ⟨hc.1 (by decide), hc.2.1 (by decide) (by decide), hr.2.2 (by decide)⟩

/-- C3: within one batch, non-empty field errors mark the item FAILED
with the joined field messages; a response carrying a node id marks it
CREATED with that remote id; a thrown error marks it FAILED with the
error message; and with distinct row ids every claimed item's row ends
up transformed by its own gateway reply alone, so no item's failure
prevents the others from being attempted. -/
theorem c3_item_outcomes_independent
    (es : List UserError) (cdn : Option String) (d : Discount) (rid msg : String)
    (sets : List DiscountSet) (db : List Discount) (setId : String)
    (fm : String → FetchReply) (cc : DiscountInput → CreateReply)
    (dset : DiscountSet) (m : MasterDiscount) :
    (es ≠ [] →
      applyReply (.response { userErrors := some es, codeDiscountNode := cdn }) d =
        markFailed (joinUserErrors es) d) ∧
    (applyReply (.response { userErrors := none, codeDiscountNode := some rid }) d =
      markCreated rid d) ∧
    (applyReply (.thrown (some msg)) d = markFailed msg d) ∧
    (sets.find? (fun s => decide (s.id = setId)) = some dset →
      fm dset.masterDiscountId = .response (some m) →
      (db.map Discount.id).Nodup →
      ∀ c ∈ claimPending db setId, ∀ (k : Nat), db[k]? = some c →
        (process_pending sets db setId fm cc).2[k]? =
          some (processItem m (buildItemSelection m) (buildCustomerContext m) cc c.code c)) := by
  refine ⟨?_, rfl, rfl, ?_⟩
  · intro hes
    unfold applyReply
    simp [List.length_pos, hes]
  · intro hfind hm hnd c hc k hk
    have hne : claimPending db setId ≠ [] := by
      intro hnil
      rw [hnil] at hc
      cases hc
    rw [process_pending_batch sets db setId fm cc dset m hfind hne hm]
    exact runBatchDb_getElem?_mem m (buildItemSelection m) (buildCustomerContext m) cc
      (claimPending db setId) db c hc (claimPending_nodup db setId hnd) k c hk rfl

/-- Witness for C3: on a two-row batch whose gateway rejects the first
code and accepts the second, both rows are attempted; the conjuncts
are applied at concrete arguments. -/
theorem c3_item_outcomes_independent_witness :
    (applyReply (.response { userErrors := some [wErr], codeDiscountNode := none }) (scRow 0) =
      markFailed (joinUserErrors [wErr]) (scRow 0)) ∧
    (applyReply (.response { userErrors := none, codeDiscountNode := some "gid://new/CODE1" })
      (scRow 1) = markCreated "gid://new/CODE1" (scRow 1)) ∧
    (applyReply (.thrown (some "socket hang up")) (scRow 0) =
      markFailed "socket hang up" (scRow 0)) ∧
    (process_pending [scSet] [scRow 0, scRow 1] "set1" scFetch scCreateRejectFirst).2[1]? =
      some (processItem scTemplate (buildItemSelection scTemplate)
        (buildCustomerContext scTemplate) scCreateRejectFirst (scRow 1).code (scRow 1)) := by
  have h := c3_item_outcomes_independent [wErr] none (scRow 0) "gid://new/CODE1"
    "socket hang up" [scSet] [scRow 0, scRow 1] "set1" scFetch scCreateRejectFirst
    scSet scTemplate
  have h2 := c3_item_outcomes_independent [wErr] none (scRow 1) "gid://new/CODE1"
    "socket hang up" [scSet] [scRow 0, scRow 1] "set1" scFetch scCreateRejectFirst
    scSet scTemplate
  refine ⟨h.1 (by decide), h2.2.1, h.2.2.1, ?_⟩
  exact h.2.2.2 rfl rfl (by decide) (scRow 1) (by decide) 1 (by decide)

/-- C5: a successful `process_pending` reply reports complete exactly
when the recomputed remaining PENDING count of the set is zero; and on
the 12-code scenario database with batch size 5 the three successive
calls report processed 5 remaining 7 incomplete, processed 5 remaining
2 incomplete, and processed 2 remaining 0 complete. -/
theorem c5_batch_size_and_completion :
    (∀ (sets : List DiscountSet) (db : List Discount) (setId : String)
        (fm : String → FetchReply) (cc : DiscountInput → CreateReply) (b : Bool),
      completeFlag (process_pending sets db setId fm cc).1 = some b →
      (b = true ↔ countPending (process_pending sets db setId fm cc).2 setId = 0)) ∧
    resultTriple scStep1.1 = some (5, 7, false) ∧
    resultTriple scStep2.1 = some (5, 2, false) ∧
    resultTriple scStep3.1 = some (2, 0, true) := by
  refine ⟨?_, by decide, by decide, by decide⟩
  intro sets db setId fm cc b hb
  cases hfind : sets.find? (fun s => decide (s.id = setId)) with
  | none =>
    rw [process_pending_no_set sets db setId fm cc hfind] at hb
    exact absurd hb (by simp [completeFlag])
  | some dset =>
    by_cases hnil : claimPending db setId = []
    · rw [process_pending_empty sets db setId fm cc dset hfind hnil] at hb ⊢
      simp only [completeFlag, Option.some.injEq] at hb
      subst hb
      simp [(claimPending_nil_iff db setId).mp hnil]
    · cases hm : fm dset.masterDiscountId with
      | thrown msg =>
        rw [process_pending_fetch_thrown sets db setId fm cc dset msg hfind hnil hm] at hb
        exact absurd hb (by simp [completeFlag])
      | response om =>
        cases om with
        | none =>
          rw [process_pending_fetch_none sets db setId fm cc dset hfind hnil hm] at hb
          exact absurd hb (by simp [completeFlag])
        | some m =>
          rw [process_pending_batch sets db setId fm cc dset m hfind hnil hm] at hb ⊢
          simp only [completeFlag, Option.some.injEq] at hb
          subst hb
          simp

/-- Witness for C5: the completion criterion applied at the third
scenario call. -/
theorem c5_batch_size_and_completion_witness :
    true = true ↔ countPending scStep3.2 "set1" = 0 :=
  c5_batch_size_and_completion.1 [scSet] scStep2.2 "set1" scFetch scCreate true (by decide)

/-- C6: `retry_failed` turns exactly the FAILED rows of the set into
PENDING rows with a null error message (all other columns untouched),
and leaves every other row, including CREATED and PENDING rows of the
set and rows of other sets, completely unchanged. -/
theorem c6_retry_failed_exact_frame (db : List Discount) (setId : String)
    (k : Nat) (d : Discount) (hget : db[k]? = some d) :
    (d.discountSetId = some setId ∧ d.status = .FAILED →
      (retry_failed db setId).2[k]? =
        some { d with status := .PENDING, errorMessage := none }) ∧
    (¬(d.discountSetId = some setId ∧ d.status = .FAILED) →
      (retry_failed db setId).2[k]? = some d) := by
  have h2 : (retry_failed db setId).2 = db.map fun d =>
      if d.discountSetId = some setId ∧ d.status = .FAILED then
        { d with status := .PENDING, errorMessage := none }
      else d := rfl
  constructor <;> intro hc <;> rw [h2, List.getElem?_map, hget] <;> simp [hc]

/-- Witness for C6: a FAILED row is reset, a CREATED row is untouched. -/
theorem c6_retry_failed_exact_frame_witness :
    (retry_failed [wRowCreated, wRowFailed] "set1").2[1]? =
      some { wRowFailed with status := .PENDING, errorMessage := none } ∧
    (retry_failed [wRowCreated, wRowFailed] "set1").2[0]? = some wRowCreated :=
  ⟨(c6_retry_failed_exact_frame [wRowCreated, wRowFailed] "set1" 1 wRowFailed
      (by decide)).1 (by decide),
   (c6_retry_failed_exact_frame [wRowCreated, wRowFailed] "set1" 0 wRowCreated
      (by decide)).2 (by decide)⟩

theorem runCalls_cons (sets : List DiscountSet) (db : List Discount) (p : CallParams)
    (ps : List CallParams) :
    runCalls sets db (p :: ps) =
      runCalls sets (process_pending sets db p.setId p.fetchMaster p.createCode).2 ps := rfl

theorem runCalls_frozen (sets : List DiscountSet) (calls : List CallParams) :
    ∀ db : List Discount, (db.map Discount.id).Nodup →
      ∀ (k : Nat) (d : Discount), db[k]? = some d → d.status ≠ .PENDING →
        (runCalls sets db calls)[k]? = some d := by
  induction calls with
  | nil => intro db _ k d hget _; exact hget
  | cons p ps ih =>
    intro db hnd k d hget hst
    rw [runCalls_cons]
    apply ih
    · rw [process_pending_map_id]
      exact hnd
    · exact process_pending_frozen sets db p.setId p.fetchMaster p.createCode hnd k d hget hst
    · exact hst

/-- C7: the claim step only ever selects PENDING rows, and across any
sequence of `process_pending` calls a row that is not PENDING (already
CREATED or FAILED) is never changed again; only `retry_failed` can
return it to PENDING. -/
theorem c7_no_reclaim_no_reprocess (sets : List DiscountSet) (db : List Discount)
    (hnd : (db.map Discount.id).Nodup) :
    (∀ setId, ∀ c ∈ claimPending db setId, c.status = .PENDING) ∧
    (∀ (calls : List CallParams) (k : Nat) (d : Discount),
      db[k]? = some d → d.status ≠ .PENDING →
      (runCalls sets db calls)[k]? = some d) :=
  ⟨fun setId c hc => (claimPending_pending db setId c hc).2,
   fun calls k d hget hst => runCalls_frozen sets calls db hnd k d hget hst⟩

/-- Witness for C7: after two polled calls on a database holding one
CREATED and one FAILED row beside a PENDING one, both stay unchanged. -/
theorem c7_no_reclaim_no_reprocess_witness :
    (runCalls [scSet] [wRowCreated, wRowFailed, scRow 0]
      [⟨"set1", scFetch, scCreate⟩, ⟨"set1", scFetch, scCreate⟩])[0]? = some wRowCreated ∧
    (runCalls [scSet] [wRowCreated, wRowFailed, scRow 0]
      [⟨"set1", scFetch, scCreate⟩, ⟨"set1", scFetch, scCreate⟩])[1]? = some wRowFailed := by
  have h := c7_no_reclaim_no_reprocess [scSet] [wRowCreated, wRowFailed, scRow 0] (by decide)
  exact ⟨h.2 [⟨"set1", scFetch, scCreate⟩, ⟨"set1", scFetch, scCreate⟩] 0 wRowCreated
      (by decide) (by decide),
    h.2 [⟨"set1", scFetch, scCreate⟩, ⟨"set1", scFetch, scCreate⟩] 1 wRowFailed
      (by decide) (by decide)⟩

end FlowerStation
